import Mathlib

/-!
Verification of the outage-data-analysis repository against its design
specification.

The definitions below are a shallow embedding of the reconciliation and
notifiability logic of `src/outage_notifier.py` (`main`,
`determine_notification_reason`) and of the helpers of
`src/outage_utils.py` (`calculate_expected_length_minutes`,
`smallest_enclosing_circle` and its private helpers).

Modelling conventions:
* A snapshot row is an `OutageRecord`; the derived duration columns
  `expected_length_minutes` / `elapsed_time_minutes` are `Option Int`
  (`none` models a pandas `NaN`/`None`), matching the producers
  `calculate_expected_length_minutes` / `calculate_active_duration_minutes`,
  both of which return a Python `int` or `None`.
* `customers_impacted` is an `Int`: every parser builds it with `int(...)`,
  so the column is never `NaN` in a snapshot row.
* Pandas comparisons against `NaN` are `False`; the helpers `naGE` and
  `naBelow` reproduce this (`naBelow` additionally folds in the explicit
  `pd.isna(...) | (... < t)` disjunctions used by the reconciler).
* CLI thresholds are modelled as exact rationals (`-r`/`-e` are float
  hours, multiplied by 60; `-c`/`-lc` are ints).
-/

namespace OutageModel

/-- One row of a parsed snapshot, with the two derived duration columns
added by `main` in `src/outage_notifier.py` (lines 354-366). -/
structure OutageRecord where
  outage_id : String
  customers_impacted : Int
  expected_length_minutes : Option Int
  elapsed_time_minutes : Option Int
deriving DecidableEq, Repr

/-- The four threshold arguments of `outage_notifier.py` after the
hours-to-minutes conversion at lines 279-280. -/
structure ThresholdConfig where
  expected_length_threshold_minutes : ℚ
  customer_threshold : Int
  large_outage_customer_threshold : Int
  elapsed_time_threshold_minutes : ℚ
deriving DecidableEq, Repr

/-- Pandas semantics of `column >= t` for a possibly-null numeric column:
`NaN >= t` is `False`. -/
def naGE (x : Option Int) (t : ℚ) : Bool :=
  match x with
  | none => false
  | some v => decide ((v : ℚ) ≥ t)

/-- Pandas semantics of `pd.isna(column) | (column < t)`: a null value
counts as "below threshold". -/
def naBelow (x : Option Int) (t : ℚ) : Bool :=
  match x with
  | none => true
  | some v => decide ((v : ℚ) < t)

/-- The filter applied to brand-new outages (`notifiable_new_outages`,
`src/outage_notifier.py` lines 409-414). -/
def notifiable_new_pred (r : OutageRecord) (cfg : ThresholdConfig) : Bool :=
  (naGE r.expected_length_minutes cfg.expected_length_threshold_minutes
      && decide (r.customers_impacted ≥ cfg.customer_threshold)
      && naGE r.elapsed_time_minutes cfg.elapsed_time_threshold_minutes)
    || decide (r.customers_impacted ≥ cfg.large_outage_customer_threshold)

/-- The filter applied to vanished outages (`notifiable_resolved_outages`,
`src/outage_notifier.py` lines 418-423); same criteria as
`notifiable_new_pred`, with the conjuncts in the order the code writes
them there. -/
def notifiable_resolved_pred (r : OutageRecord) (cfg : ThresholdConfig) : Bool :=
  (decide (r.customers_impacted ≥ cfg.customer_threshold)
      && naGE r.expected_length_minutes cfg.expected_length_threshold_minutes
      && naGE r.elapsed_time_minutes cfg.elapsed_time_threshold_minutes)
    || decide (r.customers_impacted ≥ cfg.large_outage_customer_threshold)

/-- The primary-criteria conjunction (`primary_thresholds_met`,
`src/outage_notifier.py` lines 440-444, and the first disjunct of the
new/resolved filters). -/
def primary_met (r : OutageRecord) (cfg : ThresholdConfig) : Bool :=
  naGE r.expected_length_minutes cfg.expected_length_threshold_minutes
    && decide (r.customers_impacted ≥ cfg.customer_threshold)
    && naGE r.elapsed_time_minutes cfg.elapsed_time_threshold_minutes

/-- The independent large-outage criterion (`customers_impacted >=
large_outage_customer_threshold`). -/
def large_met (r : OutageRecord) (cfg : ThresholdConfig) : Bool :=
  decide (r.customers_impacted ≥ cfg.large_outage_customer_threshold)

/-- Overall notifiability as the specification defines it:
`overall = primary_met OR large_met`. -/
def overall_notifiable (r : OutageRecord) (cfg : ThresholdConfig) : Bool :=
  primary_met r cfg || large_met r cfg

/-- `primary_thresholds_not_met_previously` (`src/outage_notifier.py`
lines 446-450): each previous-column criterion fails if the value is null
or strictly below its threshold.  (`customers_impacted` carries the
`pd.isna` check in the source as well, but the column is an `int` in
every snapshot row, so only the `<` comparison can fire.) -/
def primary_thresholds_not_met_previously (p : OutageRecord) (cfg : ThresholdConfig) : Bool :=
  naBelow p.expected_length_minutes cfg.expected_length_threshold_minutes
    || decide (p.customers_impacted < cfg.customer_threshold)
    || naBelow p.elapsed_time_minutes cfg.elapsed_time_threshold_minutes

/-- `large_outage_escalation` (`src/outage_notifier.py` lines 452-455). -/
def large_outage_escalation (c p : OutageRecord) (cfg : ThresholdConfig) : Bool :=
  decide (c.customers_impacted ≥ cfg.large_outage_customer_threshold)
    && decide (p.customers_impacted < cfg.large_outage_customer_threshold)

/-- The escalation condition for a (current, previous) pair of records of
one still-active outage (`src/outage_notifier.py` lines 458-461). -/
def escalated_pred (c p : OutageRecord) (cfg : ThresholdConfig) : Bool :=
  (primary_met c cfg && primary_thresholds_not_met_previously p cfg)
    || large_outage_escalation c p cfg

/-- The escalation condition as the specification words it (spec section
4.3): overall notifiability switched from false to true, or the
large-outage threshold was crossed.  Stated here only to be compared with
`escalated_pred`, the condition the code actually implements. -/
def escalated_spec_pred (c p : OutageRecord) (cfg : ThresholdConfig) : Bool :=
  (overall_notifiable c cfg && !overall_notifiable p cfg)
    || large_outage_escalation c p cfg

/-- `src/outage_utils.py`, `calculate_expected_length_minutes`
(lines 458-489): inputs are the snapshot time and the estimated
restoration time.  Each argument is either a null (pandas `NaT`/`None`),
the literal string `"none"`, an unparseable string (in which case
`pd.to_datetime` raises and the `except` branch returns `None`), or a
parseable timestamp, modelled by its epoch value in seconds. -/
inductive TimeVal
  | null
  | noneStr
  | unparseable
  | valid (seconds : Int)
deriving DecidableEq, Repr

/-- The body of `calculate_expected_length_minutes`: `None` on any
missing or unparseable argument, otherwise
`int((est - update).total_seconds() / 60)` (Python `int(...)` truncates
toward zero, as does `Int.div`). -/
def calculate_expected_length_minutes (update_time est_restoration_time : TimeVal) : Option Int :=
  match update_time, est_restoration_time with
  | .null, _ => none
  | _, .null => none
  | .noneStr, _ => none
  | .unparseable, _ => none
  | _, .noneStr => none
  | _, .unparseable => none
  | .valid u, .valid e => some (Int.tdiv (e - u) 60)

/-- `current_file_df['outage_id'].isin(previous_file_df['outage_id'])`:
does some record of the snapshot carry this id? -/
def containsId (sn : List OutageRecord) (oid : String) : Bool :=
  sn.any (fun r => r.outage_id = oid)

/-- The `new_outages` partition of a consecutive snapshot pair
(`src/outage_notifier.py` lines 386-405, including the explicit
empty-DataFrame branches). -/
def new_outages (previous current : List OutageRecord) : List OutageRecord :=
  if current.isEmpty && previous.isEmpty then []
  else if current.isEmpty then []
  else if previous.isEmpty then current
  else current.filter (fun r => !containsId previous r.outage_id)

/-- The `resolved_outages` partition: records of `previous` whose id is
absent from `current`; when `current` is empty the whole previous
snapshot (lines 391-394). -/
def resolved_outages (previous current : List OutageRecord) : List OutageRecord :=
  if current.isEmpty && previous.isEmpty then []
  else if current.isEmpty then previous
  else if previous.isEmpty then []
  else previous.filter (fun r => !containsId current r.outage_id)

/-- The `active_outages` partition: records of `current` whose id also
occurs in `previous`; empty whenever either snapshot is empty
(lines 386-405 again: the three special branches all set it empty). -/
def active_outages (previous current : List OutageRecord) : List OutageRecord :=
  if current.isEmpty || previous.isEmpty then []
  else current.filter (fun r => containsId previous r.outage_id)

/-- `notifiable_new_outages` (lines 407-414): the guarded filter over the
new partition.  The `if not new_outages.empty` guard is kept even though
filtering the empty list agrees with it. -/
def notifiable_new (previous current : List OutageRecord) (cfg : ThresholdConfig) :
    List OutageRecord :=
  if (new_outages previous current).isEmpty then []
  else (new_outages previous current).filter (fun r => notifiable_new_pred r cfg)

/-- `notifiable_resolved_outages` (lines 416-423). -/
def notifiable_resolved (previous current : List OutageRecord) (cfg : ThresholdConfig) :
    List OutageRecord :=
  if (resolved_outages previous current).isEmpty then []
  else (resolved_outages previous current).filter (fun r => notifiable_resolved_pred r cfg)

/-- `active_merged` (lines 429-436): the inner join of the active current
records with the matching previous records on `outage_id`, yielding
(current, previous) pairs.  `List.find?` returns the unique match when
ids are unique within the previous snapshot, which pandas' `merge`
assumes here as well (a duplicated id would duplicate rows). -/
def active_merged (previous current : List OutageRecord) :
    List (OutageRecord × OutageRecord) :=
  (active_outages previous current).filterMap
    (fun c => (previous.find? (fun p => p.outage_id = c.outage_id)).map (fun p => (c, p)))

/-- `notifiable_active_outages` (lines 458-461): the merged pairs that
satisfy the escalation condition. -/
def notifiable_active (previous current : List OutageRecord) (cfg : ThresholdConfig) :
    List (OutageRecord × OutageRecord) :=
  (active_merged previous current).filter (fun cp => escalated_pred cp.1 cp.2 cfg)

/-- C3: for every outage record and threshold configuration the
notifiability decision decomposes as `overall = primary_met OR
large_met`; `primary_met` holds exactly when all three primary
comparisons hold; a null `expected_length_minutes` makes `primary_met`
false.  (The evaluation is a total Boolean function of the record, so a
record with null fields is evaluated, never an error: the null branches
of `naGE` are explicit.) -/
theorem c3_evaluator_decomposition (r : OutageRecord) (cfg : ThresholdConfig) :
    notifiable_new_pred r cfg = (primary_met r cfg || large_met r cfg) ∧
    (primary_met r cfg = true ↔
      (∃ v, r.expected_length_minutes = some v ∧
        cfg.expected_length_threshold_minutes ≤ (v : ℚ)) ∧
      cfg.customer_threshold ≤ r.customers_impacted ∧
      (∃ w, r.elapsed_time_minutes = some w ∧
        cfg.elapsed_time_threshold_minutes ≤ (w : ℚ))) ∧
    (r.expected_length_minutes = none → primary_met r cfg = false) := by
  refine ⟨rfl, ?_, ?_⟩
  · constructor
    · intro h
      simp only [primary_met, Bool.and_eq_true, decide_eq_true_eq] at h
      obtain ⟨⟨h1, h2⟩, h3⟩ := h
      refine ⟨?_, h2, ?_⟩
      · cases hx : r.expected_length_minutes with
        | none => rw [hx] at h1; simp [naGE] at h1
        | some v =>
          rw [hx] at h1
          simp only [naGE, decide_eq_true_eq, ge_iff_le] at h1
          exact ⟨v, rfl, h1⟩
      · cases hx : r.elapsed_time_minutes with
        | none => rw [hx] at h3; simp [naGE] at h3
        | some w =>
          rw [hx] at h3
          simp only [naGE, decide_eq_true_eq, ge_iff_le] at h3
          exact ⟨w, rfl, h3⟩
    · rintro ⟨⟨v, hv, hvle⟩, hc, ⟨w, hw, hwle⟩⟩
      simp only [primary_met, Bool.and_eq_true, decide_eq_true_eq]
      exact ⟨⟨by simp [naGE, hv, ge_iff_le, hvle], hc⟩, by simp [naGE, hw, ge_iff_le, hwle]⟩
  · intro h
    simp [primary_met, naGE, h]

/-- Witness for C3 at two concrete records: one satisfying the primary
criteria (so the filter passes via the decomposition), and one whose
expected length is null (so `primary_met` is false via the third
conjunct). -/
theorem c3_evaluator_decomposition_witness :
    notifiable_new_pred ⟨"INC1", 1500, some 480, some 75⟩ ⟨360, 100, 1000, 15⟩ = true ∧
    primary_met ⟨"INC2", 1500, none, some 75⟩ ⟨360, 100, 1000, 15⟩ = false := by
  constructor
  · have h := c3_evaluator_decomposition ⟨"INC1", 1500, some 480, some 75⟩ ⟨360, 100, 1000, 15⟩
    rw [h.1, h.2.1.mpr ⟨⟨480, rfl, by norm_num⟩, by norm_num, ⟨75, rfl, by norm_num⟩⟩]
    rfl
  · exact (c3_evaluator_decomposition ⟨"INC2", 1500, none, some 75⟩ ⟨360, 100, 1000, 15⟩).2.2 rfl

/-- C7: `calculate_expected_length_minutes` is null exactly when either
argument fails to be a parseable timestamp (absent, the `"none"`
sentinel, or unparseable — the function catches the parse exception and
returns `None` rather than raising), and on two parseable timestamps it
returns their difference in whole minutes (truncated toward zero, as
Python `int(x / 60)` does). -/
theorem c7_expected_length_null_propagation (u e : TimeVal) :
    (calculate_expected_length_minutes u e = none ↔
      ¬(∃ us es, u = TimeVal.valid us ∧ e = TimeVal.valid es)) ∧
    (∀ us es, u = TimeVal.valid us → e = TimeVal.valid es →
      calculate_expected_length_minutes u e = some (Int.tdiv (es - us) 60)) := by
  constructor
  · cases u <;> cases e <;> simp [calculate_expected_length_minutes]
  · rintro us es rfl rfl
    rfl

/-- Witness for C7: a 90500-second gap truncates to 1508 whole minutes,
and an unparseable restoration estimate yields null. -/
theorem c7_expected_length_null_propagation_witness :
    calculate_expected_length_minutes (TimeVal.valid 1000) (TimeVal.valid 91500) = some 1508 ∧
    calculate_expected_length_minutes (TimeVal.valid 1000) TimeVal.unparseable = none := by
  constructor
  · exact (c7_expected_length_null_propagation (TimeVal.valid 1000) (TimeVal.valid 91500)).2
      1000 91500 rfl rfl
  · exact (c7_expected_length_null_propagation (TimeVal.valid 1000) TimeVal.unparseable).1.mpr
      (by rintro ⟨us, es, -, h⟩; cases h)

/-- `pd.isna(x) | (x < t)` is exactly the negation of `x >= t` under
pandas null semantics. -/
theorem naBelow_eq_not_naGE (x : Option Int) (t : ℚ) : naBelow x t = !naGE x t := by
  cases x with
  | none => rfl
  | some v =>
    simp only [naBelow, naGE, ← decide_not]
    exact decide_eq_decide.mpr (lt_iff_not_le.trans (not_congr ge_iff_le).symm)

/-- The previously-not-met disjunction is the Boolean negation of the
primary conjunction evaluated on the previous record. -/
theorem not_met_previously_eq_not_primary (p : OutageRecord) (cfg : ThresholdConfig) :
    primary_thresholds_not_met_previously p cfg = !primary_met p cfg := by
  have hc : decide (p.customers_impacted < cfg.customer_threshold)
      = !decide (p.customers_impacted ≥ cfg.customer_threshold) := by
    simp only [← decide_not]
    exact decide_eq_decide.mpr (lt_iff_not_le.trans (not_congr ge_iff_le).symm)
  simp only [primary_thresholds_not_met_previously, primary_met,
    naBelow_eq_not_naGE, hc, Bool.not_and, Bool.or_assoc]

/-- With unique ids in the list, `find?` on an id held by a member
returns exactly that member. -/
theorem find?_id_eq (previous : List OutageRecord)
    (h : (previous.map (fun r => r.outage_id)).Nodup)
    (p : OutageRecord) (hp : p ∈ previous) (oid : String) (hoid : p.outage_id = oid) :
    previous.find? (fun q => q.outage_id = oid) = some p := by
  induction previous with
  | nil => cases hp
  | cons a t ih =>
    rw [List.map_cons, List.nodup_cons] at h
    rcases List.mem_cons.mp hp with rfl | hpt
    · exact List.find?_cons_of_pos _ (by simp [hoid])
    · have hane : ¬ (a.outage_id = oid) := by
        intro hcontra
        have hmem : a.outage_id ∈ t.map (fun r => r.outage_id) := by
          rw [hcontra, ← hoid]
          exact List.mem_map_of_mem (fun r => r.outage_id) hpt
        exact h.1 hmem
      rw [List.find?_cons_of_neg _ (by simpa using hane)]
      exact ih h.2 hpt

/-- Membership in the active partition, unfolded through the
empty-snapshot branches. -/
theorem mem_active_outages (previous current : List OutageRecord) (c : OutageRecord) :
    c ∈ active_outages previous current ↔
      c ∈ current ∧ containsId previous c.outage_id = true := by
  unfold active_outages
  cases hcur : current.isEmpty with
  | true =>
    have : current = [] := List.isEmpty_iff.mp hcur
    subst this
    simp
  | false =>
    cases hprev : previous.isEmpty with
    | true =>
      have : previous = [] := List.isEmpty_iff.mp hprev
      subst this
      simp [containsId]
    | false =>
      simp [hcur, hprev, List.mem_filter]

/-- Membership in the merged (current, previous) pairs. -/
theorem mem_active_merged (previous current : List OutageRecord) (c p : OutageRecord) :
    (c, p) ∈ active_merged previous current ↔
      c ∈ active_outages previous current ∧
        previous.find? (fun q => q.outage_id = c.outage_id) = some p := by
  unfold active_merged
  rw [List.mem_filterMap]
  constructor
  · rintro ⟨a, ha, hsome⟩
    rw [Option.map_eq_some'] at hsome
    obtain ⟨q, hq, heq⟩ := hsome
    obtain ⟨rfl, rfl⟩ := Prod.mk.injEq .. ▸ heq
    exact ⟨ha, hq⟩
  · rintro ⟨ha, hfind⟩
    exact ⟨c, ha, by rw [hfind]; rfl⟩

/-- C1 (amended): for a consecutive snapshot pair with unique ids in the
previous snapshot, a (current, previous) record pair is emitted as
Escalated iff the records share an id, the current one is in the current
snapshot, the previous one in the previous snapshot, and either (a') the
primary criteria are all met now but were not all met before (null
previous fields counting as not met), or (b) the large-outage customer
threshold is crossed from below.  Consequently an outage whose primary
criteria were already met before, with no large-outage crossing, emits
nothing — but previous notifiability via the large-outage path alone
does not suppress a primary escalation (the uncorrected claim fails
there, see the counterexample). -/
theorem c1_active_escalation (previous current : List OutageRecord) (cfg : ThresholdConfig)
    (hprev : (previous.map (fun r => r.outage_id)).Nodup) (c p : OutageRecord) :
    ((c, p) ∈ notifiable_active previous current cfg ↔
      c ∈ current ∧ p ∈ previous ∧ c.outage_id = p.outage_id ∧
        ((primary_met c cfg = true ∧ primary_met p cfg = false) ∨
          large_outage_escalation c p cfg = true)) ∧
    (primary_met p cfg = true → large_outage_escalation c p cfg = false →
      (c, p) ∉ notifiable_active previous current cfg) := by
  have hesc : escalated_pred c p cfg = true ↔
      ((primary_met c cfg = true ∧ primary_met p cfg = false) ∨
        large_outage_escalation c p cfg = true) := by
    rw [escalated_pred, not_met_previously_eq_not_primary]
    cases primary_met c cfg <;> cases primary_met p cfg <;>
      cases large_outage_escalation c p cfg <;> simp
  have hmain : (c, p) ∈ notifiable_active previous current cfg ↔
      c ∈ current ∧ p ∈ previous ∧ c.outage_id = p.outage_id ∧
        ((primary_met c cfg = true ∧ primary_met p cfg = false) ∨
          large_outage_escalation c p cfg = true) := by
    rw [notifiable_active, List.mem_filter, mem_active_merged, mem_active_outages]
    constructor
    · rintro ⟨⟨⟨hcur, -⟩, hfind⟩, hpred⟩
      have hp := List.mem_of_find?_eq_some hfind
      have hid : p.outage_id = c.outage_id := by
        have := List.find?_some hfind
        simpa using this
      exact ⟨hcur, hp, hid.symm, hesc.mp hpred⟩
    · rintro ⟨hcur, hp, hid, hcond⟩
      refine ⟨⟨⟨hcur, ?_⟩, find?_id_eq previous hprev p hp c.outage_id hid.symm⟩, hesc.mpr hcond⟩
      exact List.any_eq_true.mpr ⟨p, hp, by simp [hid]⟩
  refine ⟨hmain, ?_⟩
  intro hpm hlarge hin
  rcases (hmain.mp hin).2.2.2 with ⟨-, hpf⟩ | hl
  · exact absurd hpm (by simp [hpf])
  · exact absurd hl (by simp [hlarge])

/-- C1 counterexample: previous record already overall-notifiable via the
large-outage path (2000 customers ≥ 1000) while its primary criteria
were not met (expected length 100 < 240); the current record meets the
primary criteria.  The specification's rule (overall false→true, or a
large-outage crossing) emits nothing, but the code emits an Escalated
event for this pair. -/
theorem c1_counterexample :
    escalated_spec_pred ⟨"INC100", 2000, some 300, some 75⟩
        ⟨"INC100", 2000, some 100, some 60⟩ ⟨240, 100, 1000, 15⟩ = false ∧
    overall_notifiable ⟨"INC100", 2000, some 100, some 60⟩ ⟨240, 100, 1000, 15⟩ = true ∧
    notifiable_active [⟨"INC100", 2000, some 100, some 60⟩]
        [⟨"INC100", 2000, some 300, some 75⟩] ⟨240, 100, 1000, 15⟩ =
      [(⟨"INC100", 2000, some 300, some 75⟩, ⟨"INC100", 2000, some 100, some 60⟩)] := by
  refine ⟨by decide, by decide, by decide⟩

/-- Witness for the amended C1 at a concrete pair: a small outage crossing
all primary thresholds between two snapshots is emitted. -/
theorem c1_active_escalation_witness :
    (⟨"INC7", 150, some 300, some 20⟩, ⟨"INC7", 40, some 300, some 5⟩) ∈
      notifiable_active [⟨"INC7", 40, some 300, some 5⟩]
        [⟨"INC7", 150, some 300, some 20⟩] ⟨240, 100, 1000, 15⟩ := by
  exact ((c1_active_escalation [⟨"INC7", 40, some 300, some 5⟩]
      [⟨"INC7", 150, some 300, some 20⟩] ⟨240, 100, 1000, 15⟩ (by decide)
      ⟨"INC7", 150, some 300, some 20⟩ ⟨"INC7", 40, some 300, some 5⟩).1).mpr
    ⟨by decide, by decide, by decide, Or.inl ⟨by decide, by decide⟩⟩

/-- C4: a record `r` of the previous snapshot whose id is absent from
the current snapshot yields exactly one Resolved event when its overall
notifiability (evaluated on the previous record's own derived columns)
holds, and none otherwise; the resolved-filter criterion coincides with
overall notifiability; and an empty current snapshot turns the whole
previous snapshot into the vanished partition. -/
theorem c4_resolved_events (previous current : List OutageRecord) (cfg : ThresholdConfig)
    (hprev : (previous.map (fun r => r.outage_id)).Nodup)
    (r : OutageRecord) (hr : r ∈ previous)
    (habs : containsId current r.outage_id = false) :
    (current = [] → resolved_outages previous current = previous) ∧
    notifiable_resolved_pred r cfg = overall_notifiable r cfg ∧
    (notifiable_resolved previous current cfg).count r =
      (if overall_notifiable r cfg = true then 1 else 0) := by
  have hprev_nodup : previous.Nodup :=
    List.Nodup.of_map (fun or => or.outage_id) hprev
  have hcount_prev : previous.count r = 1 := List.count_eq_one_of_mem hprev_nodup hr
  have hpred_eq : notifiable_resolved_pred r cfg = overall_notifiable r cfg := by
    rw [notifiable_resolved_pred, overall_notifiable, primary_met, large_met,
      Bool.and_comm (decide (r.customers_impacted ≥ cfg.customer_threshold))
        (naGE r.expected_length_minutes cfg.expected_length_threshold_minutes)]
  have hne_prev : previous.isEmpty = false := by
    cases hx : previous.isEmpty with
    | false => rfl
    | true =>
      rw [List.isEmpty_iff.mp hx] at hr
      cases hr
  have hres_mem : r ∈ resolved_outages previous current ∧
      (resolved_outages previous current).count r = 1 := by
    unfold resolved_outages
    cases hcur : current.isEmpty with
    | true =>
      have : current = [] := List.isEmpty_iff.mp hcur
      subst this
      simp only [List.isEmpty_nil, Bool.true_and, hne_prev, Bool.false_eq_true, if_false, if_true]
      exact ⟨hr, hcount_prev⟩
    | false =>
      simp only [hcur, Bool.false_and, hne_prev, Bool.false_eq_true, if_false]
      constructor
      · exact List.mem_filter.mpr ⟨hr, by simp [habs]⟩
      · rw [List.count_filter (by simp [habs])]
        exact hcount_prev
  refine ⟨?_, hpred_eq, ?_⟩
  · intro hc
    subst hc
    unfold resolved_outages
    simp only [List.isEmpty_nil, Bool.true_and, hne_prev, Bool.false_eq_true, if_false, if_true]
  · unfold notifiable_resolved
    rw [if_neg (by intro hcontra; rw [List.isEmpty_iff.mp hcontra] at hres_mem; cases hres_mem.1)]
    cases hov : overall_notifiable r cfg with
    | true =>
      have hp : (fun x => notifiable_resolved_pred x cfg) r = true := by
        show notifiable_resolved_pred r cfg = true
        rw [hpred_eq]
        exact hov
      have hcf :
          List.count r ((resolved_outages previous current).filter
            (fun x => notifiable_resolved_pred x cfg)) =
            List.count r (resolved_outages previous current) :=
        List.count_filter hp
      rw [hcf, hres_mem.2]
      rfl
    | false =>
      simp only [Bool.false_eq_true, if_false]
      rw [List.count_eq_zero]
      intro hcontra
      have := (List.mem_filter.mp hcontra).2
      rw [hpred_eq, hov] at this
      cases this

/-- Witness for C4: previous snapshot with one large outage, empty
current snapshot, one Resolved event. -/
theorem c4_resolved_events_witness :
    resolved_outages [⟨"INC2", 2000, some 480, some 90⟩] [] =
        [⟨"INC2", 2000, some 480, some 90⟩] ∧
    (notifiable_resolved [⟨"INC2", 2000, some 480, some 90⟩] [] ⟨240, 100, 1000, 15⟩).count
        ⟨"INC2", 2000, some 480, some 90⟩ = 1 := by
  have h := c4_resolved_events [⟨"INC2", 2000, some 480, some 90⟩] [] ⟨240, 100, 1000, 15⟩
    (by decide) ⟨"INC2", 2000, some 480, some 90⟩ (by decide) (by decide)
  refine ⟨h.1 rfl, ?_⟩
  rw [h.2.2]
  decide

/-- The three lifecycle event kinds the notifier reports. -/
inductive EventKind
  | newOutage
  | escalated
  | resolved
deriving DecidableEq, Repr

/-- The events one consecutive snapshot comparison produces (the three
notifiable sets assembled in `main` and handed to `send_notification`,
in the order `send_notification` walks them: new, escalated, resolved;
an Escalated event carries the current record of the merged pair). -/
def pair_events (previous current : List OutageRecord) (cfg : ThresholdConfig) :
    List (EventKind × OutageRecord) :=
  ((notifiable_new previous current cfg).map (fun r => (EventKind.newOutage, r)))
    ++ ((notifiable_active previous current cfg).map (fun cp => (EventKind.escalated, cp.1)))
    ++ ((notifiable_resolved previous current cfg).map (fun r => (EventKind.resolved, r)))

/-- The per-file loop of `main` (lines 315-532): the first snapshot only
establishes history, every later snapshot is compared against its
predecessor. -/
def reconcile_events (snapshots : List (List OutageRecord)) (cfg : ThresholdConfig) :
    List (EventKind × OutageRecord) :=
  match snapshots with
  | [] => []
  | [_] => []
  | s1 :: s2 :: rest => pair_events s1 s2 cfg ++ reconcile_events (s2 :: rest) cfg

/-- The entry gate of `main` (`src/outage_notifier.py` lines 292-294):
with fewer than two snapshot files the process calls `sys.exit(3)`
before any comparison; otherwise the run completes (implicit exit 0)
with whatever events the loop found.  `Except.error` carries the
process exit status. -/
def notifier_run (snapshots : List (List OutageRecord)) (cfg : ThresholdConfig) :
    Except Nat (List (EventKind × OutageRecord)) :=
  if snapshots.length < 2 then Except.error 3
  else Except.ok (reconcile_events snapshots cfg)

/-- C6: a run that finds fewer than two snapshots terminates with the
distinct non-zero exit status 3 — and no events are computed, since the
gate precedes the comparison loop — while this outcome differs from that
of any normally completed run, in particular one that found zero events
(`Except.ok []`). -/
theorem c6_insufficient_history (snapshots : List (List OutageRecord))
    (cfg : ThresholdConfig) (h : snapshots.length < 2) :
    notifier_run snapshots cfg = Except.error 3 ∧
    (3 : Nat) ≠ 0 ∧
    (∀ s : List (List OutageRecord), ∀ c : ThresholdConfig, 2 ≤ s.length →
      notifier_run s c = Except.ok (reconcile_events s c)) ∧
    (Except.error 3 : Except Nat (List (EventKind × OutageRecord))) ≠ Except.ok [] := by
  refine ⟨?_, by decide, ?_, by intro hcontra; cases hcontra⟩
  · unfold notifier_run
    rw [if_pos h]
  · intro s c hs
    unfold notifier_run
    rw [if_neg (by omega)]

/-- Witness for C6: a single-snapshot run exits with status 3. -/
theorem c6_insufficient_history_witness :
    notifier_run [[⟨"INC3", 500, some 480, some 30⟩]] ⟨240, 100, 1000, 15⟩ =
      Except.error 3 :=
  (c6_insufficient_history [[⟨"INC3", 500, some 480, some 30⟩]] ⟨240, 100, 1000, 15⟩
    (by decide)).1

/-- One entry of the `reasons` list that
`determine_notification_reason` (`src/outage_notifier.py` lines 465-489)
builds: the criterion name together with the previous and current values
it interpolates into the string (the large-outage fragment is rendered
with the same `customers (prev=>cur)` shape as the customers fragment). -/
inductive ReasonFragment
  | expectedLength (before after : Option Int)
  | customersFrag (before after : Int)
  | elapsedTime (before after : Option Int)
deriving DecidableEq, Repr

/-- The `reasons` list of `determine_notification_reason`: primary
fragments only inside the primary-escalation branch, one per
previously-unmet criterion, in the fixed order expected length,
customers, elapsed time; then the large-outage fragment if that path
triggered. -/
def determine_notification_reason (c p : OutageRecord) (cfg : ThresholdConfig) :
    List ReasonFragment :=
  let primary_reasons :=
    if primary_met c cfg && primary_thresholds_not_met_previously p cfg then
      (if naBelow p.expected_length_minutes cfg.expected_length_threshold_minutes then
        [ReasonFragment.expectedLength p.expected_length_minutes c.expected_length_minutes]
      else [])
      ++ (if decide (p.customers_impacted < cfg.customer_threshold) then
        [ReasonFragment.customersFrag p.customers_impacted c.customers_impacted]
      else [])
      ++ (if naBelow p.elapsed_time_minutes cfg.elapsed_time_threshold_minutes then
        [ReasonFragment.elapsedTime p.elapsed_time_minutes c.elapsed_time_minutes]
      else [])
    else []
  if large_outage_escalation c p cfg then
    primary_reasons
      ++ [ReasonFragment.customersFrag p.customers_impacted c.customers_impacted]
  else primary_reasons

/-- Rendering of one fragment (the f-strings of lines 475-487; numeric
formatting idealized by decimal `toString`, a null previous duration by
the `"nan"` that `f"...:.0f"` prints for a pandas `NaN`). -/
def fragment_text (f : ReasonFragment) : String :=
  let optText : Option Int → String := fun x =>
    match x with
    | none => "nan"
    | some v => toString v
  match f with
  | .expectedLength b a => "expected_length (" ++ optText b ++ "=>" ++ optText a ++ ")"
  | .customersFrag b a => "customers (" ++ toString b ++ "=>" ++ toString a ++ ")"
  | .elapsedTime b a => "elapsed_time (" ++ optText b ++ "=>" ++ optText a ++ ")"

/-- The returned string: `", ".join(reasons) if reasons else "unknown
reason"`. -/
def notification_reason_text (c p : OutageRecord) (cfg : ThresholdConfig) : String :=
  let reasons := determine_notification_reason c p cfg
  if reasons.isEmpty then "unknown reason"
  else String.intercalate ", " (reasons.map fragment_text)

/-- C9 counterexample: an escalation via the large-outage path alone
(current elapsed time 10 < 15 keeps the primary conjunction false) in
which the expected-length criterion nevertheless flipped from not met
(100 < 240) to met (300 ≥ 240).  The claim demands an expected-length
fragment; the code produces only the large-outage customers fragment. -/
theorem c9_counterexample :
    escalated_pred ⟨"INC9", 1200, some 300, some 10⟩ ⟨"INC9", 500, some 100, some 5⟩
        ⟨240, 100, 1000, 15⟩ = true ∧
    naBelow (some 100) (240 : ℚ) = true ∧
    naGE (some 300) (240 : ℚ) = true ∧
    determine_notification_reason ⟨"INC9", 1200, some 300, some 10⟩
        ⟨"INC9", 500, some 100, some 5⟩ ⟨240, 100, 1000, 15⟩ =
      [ReasonFragment.customersFrag 500 1200] := by
  refine ⟨by decide, by decide, by decide, by decide⟩

/-- C9 (amended): the reason list carries primary-criteria fragments only
when the primary escalation path fired; in that case it holds exactly
one fragment per criterion that flipped from not met to met, in the
order expected length, customers, elapsed time, with before/after
values, followed by the customers fragment when the large-outage path
also triggered; a large-outage-only escalation yields just that
fragment; every escalated pair yields a non-empty list; and an empty
list renders as the fixed fallback string. -/
theorem c9_reason_fragments (c p : OutageRecord) (cfg : ThresholdConfig) :
    (primary_met c cfg = true → primary_thresholds_not_met_previously p cfg = true →
      determine_notification_reason c p cfg =
        (if naBelow p.expected_length_minutes cfg.expected_length_threshold_minutes
            && naGE c.expected_length_minutes cfg.expected_length_threshold_minutes then
          [ReasonFragment.expectedLength p.expected_length_minutes c.expected_length_minutes]
        else [])
        ++ (if decide (p.customers_impacted < cfg.customer_threshold)
            && decide (c.customers_impacted ≥ cfg.customer_threshold) then
          [ReasonFragment.customersFrag p.customers_impacted c.customers_impacted]
        else [])
        ++ (if naBelow p.elapsed_time_minutes cfg.elapsed_time_threshold_minutes
            && naGE c.elapsed_time_minutes cfg.elapsed_time_threshold_minutes then
          [ReasonFragment.elapsedTime p.elapsed_time_minutes c.elapsed_time_minutes]
        else [])
        ++ (if large_outage_escalation c p cfg then
          [ReasonFragment.customersFrag p.customers_impacted c.customers_impacted]
        else [])) ∧
    ((primary_met c cfg && primary_thresholds_not_met_previously p cfg) = false →
      large_outage_escalation c p cfg = true →
      determine_notification_reason c p cfg =
        [ReasonFragment.customersFrag p.customers_impacted c.customers_impacted]) ∧
    (escalated_pred c p cfg = true → determine_notification_reason c p cfg ≠ []) ∧
    (determine_notification_reason c p cfg = [] →
      notification_reason_text c p cfg = "unknown reason") := by
  refine ⟨?_, ?_, ?_, ?_⟩
  · intro hpm hnm
    have hexp : naGE c.expected_length_minutes cfg.expected_length_threshold_minutes = true :=
      by
        have := hpm
        rw [primary_met, Bool.and_eq_true, Bool.and_eq_true] at this
        exact this.1.1
    have hcust : decide (c.customers_impacted ≥ cfg.customer_threshold) = true := by
      have := hpm
      rw [primary_met, Bool.and_eq_true, Bool.and_eq_true] at this
      exact this.1.2
    have hela : naGE c.elapsed_time_minutes cfg.elapsed_time_threshold_minutes = true := by
      have := hpm
      rw [primary_met, Bool.and_eq_true] at this
      exact this.2
    unfold determine_notification_reason
    rw [hpm, hnm]
    simp only [Bool.and_true, Bool.true_and, hexp, hcust, hela, if_true]
    cases large_outage_escalation c p cfg <;> simp
  · intro hpf hlarge
    unfold determine_notification_reason
    rw [hpf, hlarge]
    simp
  · intro hesc
    rcases Bool.or_eq_true _ _ |>.mp hesc with hp | hl
    · have hnm : primary_thresholds_not_met_previously p cfg = true :=
        (Bool.and_eq_true _ _ |>.mp hp).2
      have hpm : primary_met c cfg = true := (Bool.and_eq_true _ _ |>.mp hp).1
      unfold determine_notification_reason
      rw [hpm, hnm]
      simp only [Bool.and_self, if_true]
      rw [primary_thresholds_not_met_previously, Bool.or_eq_true, Bool.or_eq_true] at hnm
      rcases hnm with (h1 | h2) | h3
      · rw [h1]
        cases large_outage_escalation c p cfg <;> simp
      · rw [h2]
        cases large_outage_escalation c p cfg <;>
          cases naBelow p.expected_length_minutes cfg.expected_length_threshold_minutes <;> simp
      · rw [h3]
        cases large_outage_escalation c p cfg <;>
          cases naBelow p.expected_length_minutes cfg.expected_length_threshold_minutes <;>
            cases decide (p.customers_impacted < cfg.customer_threshold) <;> simp
    · unfold determine_notification_reason
      rw [hl]
      cases primary_met c cfg && primary_thresholds_not_met_previously p cfg <;> simp
  · intro hempty
    unfold notification_reason_text
    rw [hempty]
    rfl

/-- Witness for the amended C9: a primary escalation in which only the
customers criterion flipped yields exactly the customers fragment, and
it renders as that single fragment string. -/
theorem c9_reason_fragments_witness :
    determine_notification_reason ⟨"INC8", 800, some 480, some 75⟩
        ⟨"INC8", 75, some 480, some 60⟩ ⟨240, 100, 1000, 15⟩ =
      [ReasonFragment.customersFrag 75 800] := by
  have h := (c9_reason_fragments ⟨"INC8", 800, some 480, some 75⟩
    ⟨"INC8", 75, some 480, some 60⟩ ⟨240, 100, 1000, 15⟩).1 (by decide) (by decide)
  rw [h]
  decide

section Geometry

open scoped Classical

/-!
Embedding of the minimum-enclosing-circle code of `src/outage_utils.py`
(lines 56-142).  Numeric idealization: Python floats are exact rationals,
so input coordinates, deduplication and the collinearity cutoff
(`abs(d) < 1e-18`, a rational comparison) are modelled over `ℚ` exactly;
`math.hypot` is real square root, so distances and stored radii live in
`ℝ` and the containment test `dist <= r + 1e-12` is a classical
proposition (float rounding itself is not modelled).  The `c is None`
state of the Python loop is absorbed by starting the loop on the first
point, which is what the first iteration always does (`c` is `None` on
entry, so the body immediately sets `c = (points[0][0], points[0][1],
0.0)` with an empty inner scan).
-/

/-- A normalized `(lon, lat)` pair. -/
abbrev Point := ℚ × ℚ

/-- The running circle `(cx, cy, r)`; centers stay rational (midpoints
and circumcenters of rational points), radii are square roots. -/
structure Circle where
  cx : ℚ
  cy : ℚ
  r : ℝ

/-- `_distance` (lines 60-63): `math.hypot` of the coordinate
differences. -/
noncomputable def _distance (a b : Point) : ℝ :=
  Real.sqrt (((a.1 - b.1 : ℚ) : ℝ) ^ 2 + ((a.2 - b.2 : ℚ) : ℝ) ^ 2)

/-- `_is_in_circle` (lines 65-69) for a non-`None` circle:
`dist(point, center) <= r + 1e-12`. -/
noncomputable def _is_in_circle (point : Point) (c : Circle) : Prop :=
  _distance point (c.cx, c.cy) ≤ c.r + 1e-12

/-- `_circle_from_two_points` (lines 71-75). -/
noncomputable def _circle_from_two_points (a b : Point) : Circle :=
  { cx := (a.1 + b.1) / 2, cy := (a.2 + b.2) / 2, r := _distance a b / 2 }

/-- `_circle_from_three_points` (lines 77-91): `None` when the
determinant is below the `1e-18` collinearity cutoff, otherwise the
circumcircle. -/
noncomputable def _circle_from_three_points (a b c : Point) : Option Circle :=
  let d : ℚ := 2 * (a.1 * (b.2 - c.2) + b.1 * (c.2 - a.2) + c.1 * (a.2 - b.2))
  if |d| < 1e-18 then none
  else
    let ax2ay2 := a.1 * a.1 + a.2 * a.2
    let bx2by2 := b.1 * b.1 + b.2 * b.2
    let cx2cy2 := c.1 * c.1 + c.2 * c.2
    let ux := (ax2ay2 * (b.2 - c.2) + bx2by2 * (c.2 - a.2) + cx2cy2 * (a.2 - b.2)) / d
    let uy := (ax2ay2 * (c.1 - b.1) + bx2by2 * (a.1 - c.1) + cx2cy2 * (b.1 - a.1)) / d
    some { cx := ux, cy := uy, r := _distance (ux, uy) a }

/-- The innermost loop (`for k in range(j)`, lines 136-141): each
earlier point outside the current circle replaces it by the circumcircle
with `p` and `q`, unless the triple is judged collinear. -/
noncomputable def scan_k (p q : Point) : List Point → Circle → Circle
  | [], c => c
  | r :: ks, c =>
    scan_k p q ks
      (if _is_in_circle r c then c
       else
         match _circle_from_three_points p q r with
         | some c3 => c3
         | none => c)

/-- The middle loop (`for j in range(i)`, lines 132-141), carrying the
prefix of points already scanned so the inner loop sees `points[:j]`. -/
noncomputable def scan_j_aux (p : Point) : List Point → List Point → Circle → Circle
  | [], _, c => c
  | q :: js, seen, c =>
    scan_j_aux p js (seen ++ [q])
      (if _is_in_circle q c then c
       else scan_k p q seen (_circle_from_two_points p q))

/-- One outer-trigger pass: reset to the zero circle on `p`, then scan
the earlier points (lines 131-141). -/
noncomputable def scan_j (p : Point) (js : List Point) : Circle :=
  scan_j_aux p js [] { cx := p.1, cy := p.2, r := 0 }

/-- The outer loop (`for i, p in enumerate(points)`, lines 128-141),
carrying the prefix of already-processed points. -/
noncomputable def scan_points_aux : List Point → List Point → Circle → Circle
  | [], _, c => c
  | p :: ps, seen, c =>
    scan_points_aux ps (seen ++ [p])
      (if _is_in_circle p c then c else scan_j p seen)

/-- The whole loop started on the first point (the `c is None` first
iteration). -/
noncomputable def scan_points (p0 : Point) (rest : List Point) : Circle :=
  scan_points_aux rest [p0] { cx := p0.1, cy := p0.2, r := 0 }

/-- One entry of one input ring as the normalization loop (lines
98-109) sees it, restricted to the entries the loop handles itself: a
`None` entry (`if p is None: continue`), an entry on which
`float(p[0])`/`float(p[1])` raises one of the caught classes
`(ValueError, TypeError, IndexError)` (`except ...: continue`), or a
valid coordinate pair.  Entries whose subscripting raises outside the
caught tuple are modelled separately by `RawEntry` below, where the
exception channel is explicit. -/
inductive RawPoint
  | nonePoint
  | malformed
  | valid (lon lat : ℚ)
deriving DecidableEq, Repr

/-- The `try: lon = float(p[0]); lat = float(p[1])` conversion: `none`
exactly on the skipped entries. -/
def raw_to_point (p : RawPoint) : Option Point :=
  match p with
  | RawPoint.valid lon lat => some (lon, lat)
  | _ => none

/-- Whether an entry survives normalization. -/
def is_valid_raw (p : RawPoint) : Bool :=
  match p with
  | RawPoint.valid _ _ => true
  | _ => false

/-- The normalization loop (lines 98-109): flatten all rings, a `None`
ring contributing nothing (`points_lon_lat or []`), skipping `None` and
unconvertible entries. -/
def normalize (input : List (Option (List RawPoint))) : List Point :=
  input.foldr (fun sub acc => (sub.getD []).filterMap raw_to_point ++ acc) []

/-- The order-preserving deduplication (lines 111-117): keep the first
occurrence of every exact coordinate pair. -/
def dedup_points (pts : List Point) : List Point :=
  pts.foldl (fun acc pt => if pt ∈ acc then acc else acc ++ [pt]) []

/-- `smallest_enclosing_circle` (lines 93-142): the `(0.0, 0.0, 0.0)`
sentinel on an empty normalized set, the point itself with radius `0.0`
on a singleton, otherwise the incremental scan. -/
noncomputable def smallest_enclosing_circle (input : List (Option (List RawPoint))) :
    ℚ × ℚ × ℝ :=
  match dedup_points (normalize input) with
  | [] => (0, 0, 0)
  | [p] => (p.1, p.2, 0)
  | p0 :: rest =>
    let c := scan_points p0 rest
    (c.cx, c.cy, c.r)

/-- Every circle built from two points has a nonnegative radius. -/
theorem circle_from_two_r_nonneg (a b : Point) : 0 ≤ (_circle_from_two_points a b).r :=
  div_nonneg (Real.sqrt_nonneg _) (by norm_num)

/-- Every circumcircle the code accepts has a nonnegative radius. -/
theorem circle_from_three_r_nonneg (a b c : Point) (c3 : Circle)
    (h : _circle_from_three_points a b c = some c3) : 0 ≤ c3.r := by
  rw [_circle_from_three_points] at h
  split at h
  · cases h
  · injection h with h2
    rw [← h2]
    exact Real.sqrt_nonneg _

/-- The inner loop preserves nonnegativity of the radius. -/
theorem scan_k_r_nonneg (p q : Point) (ks : List Point) (c0 : Circle)
    (h : 0 ≤ c0.r) : 0 ≤ (scan_k p q ks c0).r := by
  induction ks generalizing c0 with
  | nil => exact h
  | cons r ks ih =>
    rw [scan_k]
    apply ih
    split
    · exact h
    · cases h3 : _circle_from_three_points p q r with
      | none => simpa [h3] using h
      | some c3 =>
        simpa [h3] using circle_from_three_r_nonneg p q r c3 h3

/-- The middle loop preserves nonnegativity of the radius. -/
theorem scan_j_aux_r_nonneg (p : Point) (js seen : List Point) (c0 : Circle)
    (h : 0 ≤ c0.r) : 0 ≤ (scan_j_aux p js seen c0).r := by
  induction js generalizing seen c0 with
  | nil => exact h
  | cons q js ih =>
    rw [scan_j_aux]
    apply ih
    split
    · exact h
    · exact scan_k_r_nonneg p q seen _ (circle_from_two_r_nonneg p q)

/-- The outer loop preserves nonnegativity of the radius. -/
theorem scan_points_aux_r_nonneg (ps seen : List Point) (c0 : Circle)
    (h : 0 ≤ c0.r) : 0 ≤ (scan_points_aux ps seen c0).r := by
  induction ps generalizing seen c0 with
  | nil => exact h
  | cons p ps ih =>
    rw [scan_points_aux]
    apply ih
    split
    · exact h
    · exact scan_j_aux_r_nonneg p seen [] _ le_rfl

/-- C8: the returned radius is nonnegative for every input; the empty
normalized point set returns the `(0, 0, 0)` sentinel; a singleton
normalized point set returns that point with radius exactly `0`. -/
theorem c8_degenerate_cases (input : List (Option (List RawPoint))) :
    0 ≤ (smallest_enclosing_circle input).2.2 ∧
    (dedup_points (normalize input) = [] → smallest_enclosing_circle input = (0, 0, 0)) ∧
    (∀ q : Point, dedup_points (normalize input) = [q] →
      smallest_enclosing_circle input = (q.1, q.2, 0)) := by
  refine ⟨?_, ?_, ?_⟩
  · rw [smallest_enclosing_circle]
    cases h : dedup_points (normalize input) with
    | nil => exact le_rfl
    | cons p0 rest =>
      cases rest with
      | nil => exact le_rfl
      | cons p1 rest2 =>
        exact scan_points_aux_r_nonneg (p1 :: rest2) [p0] _ le_rfl
  · intro h
    rw [smallest_enclosing_circle, h]
  · intro q h
    rw [smallest_enclosing_circle, h]

/-- Witness for C8: a single valid point comes back as the center with
radius `0`, and the empty input yields the sentinel. -/
theorem c8_degenerate_cases_witness :
    smallest_enclosing_circle [some [RawPoint.valid 3 4]] = (3, 4, 0) ∧
    smallest_enclosing_circle [] = (0, 0, 0) := by
  constructor
  · exact (c8_degenerate_cases [some [RawPoint.valid 3 4]]).2.2 (3, 4) (by decide)
  · exact (c8_degenerate_cases []).2.1 (by decide)

/-- One coordinate entry as the conversion loop's exception semantics
distinguish them: a `None` entry (the `if p is None: continue` branch);
an entry whose subscripting or conversion raises one of the caught
classes `(ValueError, TypeError, IndexError)` (the `except ...:
continue` branch); an entry whose subscripting raises outside that
tuple — e.g. a dict entry with no key `0`, where `p[0]` raises
`KeyError` — which the loop does not catch; or a valid coordinate
pair. -/
inductive RawEntry
  | nonePoint
  | caught
  | uncaught
  | valid (lon lat : ℚ)
deriving DecidableEq, Repr

/-- The body of the conversion loop for one entry: `ok none` on the two
skip branches, `error` when an exception propagates uncaught, `ok (some
pt)` on a successful conversion. -/
def normalize_entry (p : RawEntry) : Except Unit (Option Point) :=
  match p with
  | RawEntry.nonePoint => Except.ok none
  | RawEntry.caught => Except.ok none
  | RawEntry.uncaught => Except.error ()
  | RawEntry.valid lon lat => Except.ok (some (lon, lat))

/-- The loop over one ring with the exception channel explicit: an
uncaught-raising entry aborts the whole computation. -/
def normalize_ring (ring : List RawEntry) : Except Unit (List Point) :=
  match ring with
  | [] => Except.ok []
  | p :: rest =>
    match normalize_entry p with
    | Except.error e => Except.error e
    | Except.ok none => normalize_ring rest
    | Except.ok (some pt) => Except.map (fun l => pt :: l) (normalize_ring rest)

/-- The full normalization loop (lines 98-109) with exceptions
explicit: a `None` ring contributes nothing (`points_lon_lat or []`),
and an uncaught exception in any ring propagates out of the
function. -/
def normalizeE (input : List (Option (List RawEntry))) : Except Unit (List Point) :=
  match input with
  | [] => Except.ok []
  | sub :: rest =>
    match normalize_ring (sub.getD []) with
    | Except.error e => Except.error e
    | Except.ok l => Except.map (fun l2 => l ++ l2) (normalizeE rest)

/-- `smallest_enclosing_circle` (lines 93-142) with the exception
channel explicit: `error` models the call raising, `ok` a returned
triple; on the error-free fragment this is the same computation as
`smallest_enclosing_circle`. -/
noncomputable def smallest_enclosing_circleE (input : List (Option (List RawEntry))) :
    Except Unit (ℚ × ℚ × ℝ) :=
  match normalizeE input with
  | Except.error e => Except.error e
  | Except.ok pts =>
    Except.ok
      (match dedup_points pts with
       | [] => (0, 0, 0)
       | [p] => (p.1, p.2, 0)
       | p0 :: rest =>
         let c := scan_points p0 rest
         (c.cx, c.cy, c.r))

/-- Whether the loop silently skips this entry. -/
def entry_skipped (p : RawEntry) : Bool :=
  match p with
  | RawEntry.nonePoint => true
  | RawEntry.caught => true
  | _ => false

/-- `isOk` sees through `Except.map`. -/
theorem isOk_map {α β : Type} (f : α → β) (x : Except Unit α) :
    (Except.map f x).isOk = x.isOk := by
  cases x <;> rfl

/-- A ring converts without raising iff it has no uncaught-raising
entry. -/
theorem normalize_ring_isOk (ring : List RawEntry) :
    (normalize_ring ring).isOk = true ↔ ∀ p ∈ ring, p ≠ RawEntry.uncaught := by
  induction ring with
  | nil => simp [normalize_ring, Except.isOk, Except.toBool]
  | cons p rest ih =>
    cases p with
    | nonePoint => simpa [normalize_ring, normalize_entry] using ih
    | caught => simpa [normalize_ring, normalize_entry] using ih
    | uncaught => simp [normalize_ring, normalize_entry, Except.isOk, Except.toBool]
    | valid lon lat => simp [normalize_ring, normalize_entry, isOk_map, ih]

/-- Dropping the silently-skipped entries of a ring changes nothing. -/
theorem normalize_ring_filter (ring : List RawEntry) :
    normalize_ring (ring.filter (fun p => ! entry_skipped p)) = normalize_ring ring := by
  induction ring with
  | nil => rfl
  | cons p rest ih =>
    cases p with
    | nonePoint =>
      rw [show List.filter (fun q => ! entry_skipped q) (RawEntry.nonePoint :: rest) =
          List.filter (fun q => ! entry_skipped q) rest from by simp [entry_skipped], ih]
      rfl
    | caught =>
      rw [show List.filter (fun q => ! entry_skipped q) (RawEntry.caught :: rest) =
          List.filter (fun q => ! entry_skipped q) rest from by simp [entry_skipped], ih]
      rfl
    | uncaught =>
      rw [show List.filter (fun q => ! entry_skipped q) (RawEntry.uncaught :: rest) =
          RawEntry.uncaught :: List.filter (fun q => ! entry_skipped q) rest from by
        simp [entry_skipped]]
      rfl
    | valid lon lat =>
      rw [show List.filter (fun q => ! entry_skipped q) (RawEntry.valid lon lat :: rest) =
          RawEntry.valid lon lat :: List.filter (fun q => ! entry_skipped q) rest from by
        simp [entry_skipped]]
      show Except.map (fun l => (lon, lat) :: l)
          (normalize_ring (List.filter (fun q => ! entry_skipped q) rest)) =
        Except.map (fun l => (lon, lat) :: l) (normalize_ring rest)
      rw [ih]

/-- A ring of skipped entries only converts to no points. -/
theorem normalize_ring_all_skipped (ring : List RawEntry)
    (h : ∀ p ∈ ring, entry_skipped p = true) :
    normalize_ring ring = Except.ok [] := by
  induction ring with
  | nil => rfl
  | cons p rest ih =>
    have hp := h p (List.mem_cons_self p rest)
    have hrest := ih (fun q hq => h q (List.mem_cons_of_mem p hq))
    cases p with
    | nonePoint => simpa [normalize_ring, normalize_entry] using hrest
    | caught => simpa [normalize_ring, normalize_entry] using hrest
    | uncaught => simp [entry_skipped] at hp
    | valid lon lat => simp [entry_skipped] at hp

/-- The whole normalization runs without raising iff no ring holds an
uncaught-raising entry. -/
theorem normalizeE_isOk (input : List (Option (List RawEntry))) :
    (normalizeE input).isOk = true ↔
      ∀ sub ∈ input, ∀ p ∈ sub.getD [], p ≠ RawEntry.uncaught := by
  induction input with
  | nil => simp [normalizeE, Except.isOk, Except.toBool]
  | cons sub rest ih =>
    rw [normalizeE]
    cases hr : normalize_ring (sub.getD []) with
    | error e =>
      have h1 : ¬ ∀ p ∈ sub.getD [], p ≠ RawEntry.uncaught := by
        rw [← normalize_ring_isOk, hr]
        simp [Except.isOk, Except.toBool]
      simp [Except.isOk, Except.toBool, List.forall_mem_cons, h1]
    | ok l =>
      have h1 : ∀ p ∈ sub.getD [], p ≠ RawEntry.uncaught := by
        rw [← normalize_ring_isOk, hr]
        rfl
      rw [isOk_map, ih]
      exact ⟨fun hr2 => List.forall_mem_cons.mpr ⟨h1, hr2⟩,
        fun hall => (List.forall_mem_cons.mp hall).2⟩

/-- Dropping `None` rings and skipped entries everywhere changes
nothing. -/
theorem normalizeE_filter (input : List (Option (List RawEntry))) :
    normalizeE (input.map (fun sub => some ((sub.getD []).filter (fun p => ! entry_skipped p)))) =
      normalizeE input := by
  induction input with
  | nil => rfl
  | cons sub rest ih =>
    rw [List.map_cons, normalizeE, normalizeE, Option.getD_some, normalize_ring_filter]
    cases hr : normalize_ring (sub.getD []) with
    | error e => rfl
    | ok l => rw [ih]

/-- An input of skipped entries only normalizes to the empty list. -/
theorem normalizeE_all_skipped (input : List (Option (List RawEntry)))
    (h : ∀ sub ∈ input, ∀ p ∈ sub.getD [], entry_skipped p = true) :
    normalizeE input = Except.ok [] := by
  induction input with
  | nil => rfl
  | cons sub rest ih =>
    rw [normalizeE, normalize_ring_all_skipped (sub.getD [])
        (h sub (List.mem_cons_self sub rest)),
      ih (fun s hs => h s (List.mem_cons_of_mem sub hs))]
    rfl

/-- C10: counterexample to the original totality claim: a single entry
whose subscripting raises outside the caught tuple — e.g. a dict entry
with no key `0`, where `p[0]` raises `KeyError` instead of the caught
`ValueError`/`TypeError`/`IndexError` — makes `smallest_enclosing_circle`
raise instead of returning a triple, so it is not total over arbitrary
inputs. -/
theorem c10_counterexample :
    smallest_enclosing_circleE [some [RawEntry.uncaught]] = Except.error () := rfl

/-- C10: (amended claim) `smallest_enclosing_circle` returns a triple
without raising exactly when no entry raises outside the caught classes
`(ValueError, TypeError, IndexError)`; `None` rings, `None` entries and
entries raising a caught class are silently skipped, so dropping them
first changes nothing; and an input whose entries are all skipped this
way behaves like the empty input, returning the `(0.0, 0.0, 0.0)`
sentinel. -/
theorem c10_malformed_input_safety (input : List (Option (List RawEntry))) :
    ((smallest_enclosing_circleE input).isOk = true ↔
        ∀ sub ∈ input, ∀ p ∈ sub.getD [], p ≠ RawEntry.uncaught) ∧
    smallest_enclosing_circleE
        (input.map (fun sub => some ((sub.getD []).filter (fun p => ! entry_skipped p)))) =
      smallest_enclosing_circleE input ∧
    ((∀ sub ∈ input, ∀ p ∈ sub.getD [], entry_skipped p = true) →
      smallest_enclosing_circleE input = Except.ok (0, 0, 0)) := by
  refine ⟨?_, ?_, ?_⟩
  · have hiso : (smallest_enclosing_circleE input).isOk = (normalizeE input).isOk := by
      rw [smallest_enclosing_circleE]
      cases hn : normalizeE input with
      | error e => rfl
      | ok pts => rfl
    rw [hiso, normalizeE_isOk]
  · rw [smallest_enclosing_circleE, smallest_enclosing_circleE, normalizeE_filter]
  · intro h
    rw [smallest_enclosing_circleE, normalizeE_all_skipped input h]
    rfl

/-- Witness for C10: an input holding only a `None` ring and entries of
both skipped kinds runs without raising and returns the sentinel. -/
theorem c10_malformed_input_safety_witness :
    (smallest_enclosing_circleE [some [RawEntry.nonePoint, RawEntry.caught], none]).isOk
        = true ∧
    smallest_enclosing_circleE [some [RawEntry.nonePoint, RawEntry.caught], none] =
      Except.ok (0, 0, 0) :=
  ⟨(c10_malformed_input_safety [some [RawEntry.nonePoint, RawEntry.caught], none]).1.mpr
      (by decide),
   (c10_malformed_input_safety [some [RawEntry.nonePoint, RawEntry.caught], none]).2.2
      (by decide)⟩

-- ### evaluation at s = 2^-31

/-- The side length of the micro-scale triangle: at this coordinate
scale every triple of points has `|d| < 1e-18`, so the code treats all
triples as collinear. -/
def sED : ℚ := 1 / 2 ^ 31

/-- Unfolding equations for the loop embeddings (definitional). -/
theorem scan_k_nil (p q : Point) (c : Circle) : scan_k p q [] c = c := rfl

/-- Cons unfolding of the inner loop. -/
theorem scan_k_cons (p q r : Point) (ks : List Point) (c : Circle) :
    scan_k p q (r :: ks) c = scan_k p q ks
      (if _is_in_circle r c then c
       else
         match _circle_from_three_points p q r with
         | some c3 => c3
         | none => c) := rfl

/-- Nil unfolding of the middle loop. -/
theorem scan_j_aux_nil (p : Point) (seen : List Point) (c : Circle) :
    scan_j_aux p [] seen c = c := rfl

/-- Cons unfolding of the middle loop. -/
theorem scan_j_aux_cons (p q : Point) (js seen : List Point) (c : Circle) :
    scan_j_aux p (q :: js) seen c = scan_j_aux p js (seen ++ [q])
      (if _is_in_circle q c then c
       else scan_k p q seen (_circle_from_two_points p q)) := rfl

/-- Nil unfolding of the outer loop. -/
theorem scan_points_aux_nil (seen : List Point) (c : Circle) :
    scan_points_aux [] seen c = c := rfl

/-- Cons unfolding of the outer loop. -/
theorem scan_points_aux_cons (p : Point) (ps seen : List Point) (c : Circle) :
    scan_points_aux (p :: ps) seen c = scan_points_aux ps (seen ++ [p])
      (if _is_in_circle p c then c else scan_j p seen) := rfl

/-- A point is strictly outside a circle (beyond the `1e-12` slack) when
some real number sits strictly above `r + 1e-12` and weakly below the
distance. -/
theorem not_in_circle_of_wedge (pt : Point) (c : Circle) (x : ℝ)
    (hgt : c.r + 1e-12 < x)
    (hle : x ^ 2 ≤ ((pt.1 - c.cx : ℚ) : ℝ) ^ 2 + ((pt.2 - c.cy : ℚ) : ℝ) ^ 2) :
    ¬ _is_in_circle pt c := by
  rw [_is_in_circle]
  push_neg
  calc c.r + 1e-12 < x := hgt
    _ ≤ _distance pt (c.cx, c.cy) := Real.le_sqrt_of_sq_le hle

/-- The base-side distances evaluate to `sED` exactly. -/
theorem dist_B_A : _distance (sED, 0) (0, 0) = ((sED : ℚ) : ℝ) := by
  rw [_distance]
  push_cast
  rw [show ((sED : ℝ) - 0) ^ 2 + ((0 : ℝ) - 0) ^ 2 = (sED : ℝ) ^ 2 by ring]
  exact Real.sqrt_sq (by rw [sED]; positivity)

/-- Upper bound on the slanted side `C`–`A` (`√5·sED/2 ≈ 5.21e-10`). -/
theorem dist_C_A_lt : _distance (sED/2, sED) (0, 0) < ((798 / 10 ^ 12 : ℚ) : ℝ) := by
  rw [_distance]
  apply (Real.sqrt_lt' (by norm_num)).mpr
  push_cast
  rw [sED]
  norm_num

/-- Upper bound on the slanted side `A`–`C` (same length, swapped
argument order as the code produces it). -/
theorem dist_A_C_lt : _distance (0, 0) (sED/2, sED) < ((798 / 10 ^ 12 : ℚ) : ℝ) := by
  rw [_distance]
  apply (Real.sqrt_lt' (by norm_num)).mpr
  push_cast
  rw [sED]
  norm_num

/-- Upper bound on the slanted side `C`–`B`. -/
theorem dist_C_B_lt : _distance (sED/2, sED) (sED, 0) < ((798 / 10 ^ 12 : ℚ) : ℝ) := by
  rw [_distance]
  apply (Real.sqrt_lt' (by norm_num)).mpr
  push_cast
  rw [sED]
  norm_num

/-- Upper bound on the slanted side `B`–`C`. -/
theorem dist_B_C_lt : _distance (sED, 0) (sED/2, sED) < ((798 / 10 ^ 12 : ℚ) : ℝ) := by
  rw [_distance]
  apply (Real.sqrt_lt' (by norm_num)).mpr
  push_cast
  rw [sED]
  norm_num

/-- `B` is not inside the zero circle on `A`. -/
theorem dec_B_zA : ¬ _is_in_circle (sED, 0) { cx := 0, cy := 0, r := 0 } := by
  apply not_in_circle_of_wedge _ _ ((sED : ℚ) : ℝ)
  · show (0 : ℝ) + 1e-12 < _
    rw [sED]
    norm_num
  · push_cast
    rw [sED]
    norm_num

/-- `A` is not inside the zero circle on `B`. -/
theorem dec_A_zB : ¬ _is_in_circle (0, 0) { cx := sED, cy := 0, r := 0 } := by
  apply not_in_circle_of_wedge _ _ ((sED : ℚ) : ℝ)
  · show (0 : ℝ) + 1e-12 < _
    rw [sED]
    norm_num
  · push_cast
    rw [sED]
    norm_num

/-- `A` is not inside the zero circle on `C`. -/
theorem dec_A_zC : ¬ _is_in_circle (0, 0) { cx := sED/2, cy := sED, r := 0 } := by
  apply not_in_circle_of_wedge _ _ ((sED : ℚ) : ℝ)
  · show (0 : ℝ) + 1e-12 < _
    rw [sED]
    norm_num
  · push_cast
    rw [sED]
    norm_num

/-- `C` is not inside the zero circle on `A`. -/
theorem dec_C_zA : ¬ _is_in_circle (sED/2, sED) { cx := 0, cy := 0, r := 0 } := by
  apply not_in_circle_of_wedge _ _ ((sED : ℚ) : ℝ)
  · show (0 : ℝ) + 1e-12 < _
    rw [sED]
    norm_num
  · push_cast
    rw [sED]
    norm_num

/-- `C` is not inside the zero circle on `B`. -/
theorem dec_C_zB : ¬ _is_in_circle (sED/2, sED) { cx := sED, cy := 0, r := 0 } := by
  apply not_in_circle_of_wedge _ _ ((sED : ℚ) : ℝ)
  · show (0 : ℝ) + 1e-12 < _
    rw [sED]
    norm_num
  · push_cast
    rw [sED]
    norm_num

/-- `C` is not inside the diameter circle on `B`,`A` (it sits a full
side-length above its center). -/
theorem dec_C_dBA : ¬ _is_in_circle (sED/2, sED) (_circle_from_two_points (sED, 0) (0, 0)) := by
  rw [_circle_from_two_points]
  apply not_in_circle_of_wedge _ _ ((sED : ℚ) : ℝ)
  · show _distance (sED, 0) (0, 0) / 2 + 1e-12 < _
    rw [dist_B_A]
    rw [sED]
    norm_num
  · push_cast
    rw [sED]
    norm_num

/-- `B` is not inside the diameter circle on `C`,`A`. -/
theorem dec_B_dCA : ¬ _is_in_circle (sED, 0) (_circle_from_two_points (sED/2, sED) (0, 0)) := by
  rw [_circle_from_two_points]
  apply not_in_circle_of_wedge _ _ (((4 / 10 ^ 10 : ℚ)) : ℝ)
  · show _distance (sED/2, sED) (0, 0) / 2 + 1e-12 < _
    have h := dist_C_A_lt
    push_cast at h ⊢
    norm_num at h ⊢
    linarith
  · push_cast
    rw [sED]
    norm_num

/-- `A` is not inside the diameter circle on `C`,`B` (this is the final
circle of the `[A, B, C]` run, so this is the containment violation). -/
theorem dec_A_dCB : ¬ _is_in_circle (0, 0) (_circle_from_two_points (sED/2, sED) (sED, 0)) := by
  rw [_circle_from_two_points]
  apply not_in_circle_of_wedge _ _ (((4 / 10 ^ 10 : ℚ)) : ℝ)
  · show _distance (sED/2, sED) (sED, 0) / 2 + 1e-12 < _
    have h := dist_C_B_lt
    push_cast at h ⊢
    norm_num at h ⊢
    linarith
  · push_cast
    rw [sED]
    norm_num

/-- `B` is not inside the diameter circle on `A`,`C`. -/
theorem dec_B_dAC : ¬ _is_in_circle (sED, 0) (_circle_from_two_points (0, 0) (sED/2, sED)) := by
  rw [_circle_from_two_points]
  apply not_in_circle_of_wedge _ _ (((4 / 10 ^ 10 : ℚ)) : ℝ)
  · show _distance (0, 0) (sED/2, sED) / 2 + 1e-12 < _
    have h := dist_A_C_lt
    push_cast at h ⊢
    norm_num at h ⊢
    linarith
  · push_cast
    rw [sED]
    norm_num

/-- `A` is not inside the diameter circle on `B`,`C`. -/
theorem dec_A_dBC : ¬ _is_in_circle (0, 0) (_circle_from_two_points (sED, 0) (sED/2, sED)) := by
  rw [_circle_from_two_points]
  apply not_in_circle_of_wedge _ _ (((4 / 10 ^ 10 : ℚ)) : ℝ)
  · show _distance (sED, 0) (sED/2, sED) / 2 + 1e-12 < _
    have h := dist_B_C_lt
    push_cast at h ⊢
    norm_num at h ⊢
    linarith
  · push_cast
    rw [sED]
    norm_num

/-- At this scale the determinant of the `C`,`B`,`A` triple is
`-2·sED²`, below the `1e-18` cutoff, so the circumcircle update is
skipped. -/
theorem three_C_B_A :
    _circle_from_three_points (sED/2, sED) (sED, 0) (0, 0) = none := by
  rw [_circle_from_three_points]
  norm_num [sED]
  intro h
  rw [abs_of_pos (by norm_num)] at h
  norm_num at h

/-- Same skip for the `B`,`A`,`C` triple of the permuted run. -/
theorem three_B_A_C :
    _circle_from_three_points (sED, 0) (0, 0) (sED/2, sED) = none := by
  rw [_circle_from_three_points]
  norm_num [sED]
  intro h
  rw [abs_of_pos (by norm_num)] at h
  norm_num at h

/-- The run on order `[A, B, C]` ends on the diameter circle of `C` and
`B`, of radius `≈ 2.6e-10`, centered at `(3·sED/4, sED/2)`. -/
theorem sec_eval_order1 :
    smallest_enclosing_circle [some [RawPoint.valid 0 0, RawPoint.valid sED 0,
        RawPoint.valid (sED/2) sED]] =
      (3 * sED / 4, sED / 2, _distance (sED/2, sED) (sED, 0) / 2) := by
  have hn : normalize [some [RawPoint.valid 0 0, RawPoint.valid sED 0,
      RawPoint.valid (sED/2) sED]] = [(0, 0), (sED, 0), (sED/2, sED)] := by
    simp [normalize, raw_to_point]
  have hd : dedup_points (normalize [some [RawPoint.valid 0 0, RawPoint.valid sED 0,
      RawPoint.valid (sED/2) sED]]) = [(0, 0), (sED, 0), (sED/2, sED)] := by
    rw [hn, dedup_points]
    norm_num [List.foldl, Prod.ext_iff, sED]
  rw [smallest_enclosing_circle, hd]
  show ((scan_points (0, 0) [(sED, 0), (sED/2, sED)]).cx,
        (scan_points (0, 0) [(sED, 0), (sED/2, sED)]).cy,
        (scan_points (0, 0) [(sED, 0), (sED/2, sED)]).r) = _
  have e1 : scan_j (sED, 0) [(0, 0)] = _circle_from_two_points (sED, 0) (0, 0) := by
    rw [scan_j, scan_j_aux_cons, if_neg dec_A_zB, scan_k_nil, List.nil_append,
      scan_j_aux_nil]
  have e2 : scan_j (sED/2, sED) [(0, 0), (sED, 0)] =
      _circle_from_two_points (sED/2, sED) (sED, 0) := by
    rw [scan_j, scan_j_aux_cons, if_neg dec_A_zC, scan_k_nil, List.nil_append,
      scan_j_aux_cons, if_neg dec_B_dCA, scan_k_cons, if_neg dec_A_dCB, three_C_B_A,
      scan_k_nil, scan_j_aux_nil]
  rw [scan_points, scan_points_aux_cons, if_neg dec_B_zA, e1,
    show ([(0, 0)] ++ [(sED, 0)] : List Point) = [(0, 0), (sED, 0)] from rfl,
    scan_points_aux_cons, if_neg dec_C_dBA, e2, scan_points_aux_nil,
    _circle_from_two_points]
  show ((sED/2 + sED) / 2, (sED + 0) / 2, _distance (sED/2, sED) (sED, 0) / 2) = _
  rw [show (sED/2 + sED) / 2 = 3 * sED / 4 from by ring,
    show (sED + 0) / 2 = sED / 2 from by ring]

/-- The run on order `[C, A, B]` ends on the diameter circle of `B` and
`A`, of radius `sED/2 ≈ 2.33e-10`, centered at `(sED/2, 0)`: a
different circle than the `[A, B, C]` run returns. -/
theorem sec_eval_order2 :
    smallest_enclosing_circle [some [RawPoint.valid (sED/2) sED, RawPoint.valid 0 0,
        RawPoint.valid sED 0]] =
      (sED / 2, 0, _distance (sED, 0) (0, 0) / 2) := by
  have hn : normalize [some [RawPoint.valid (sED/2) sED, RawPoint.valid 0 0,
      RawPoint.valid sED 0]] = [(sED/2, sED), (0, 0), (sED, 0)] := by
    simp [normalize, raw_to_point]
  have hd : dedup_points (normalize [some [RawPoint.valid (sED/2) sED, RawPoint.valid 0 0,
      RawPoint.valid sED 0]]) = [(sED/2, sED), (0, 0), (sED, 0)] := by
    rw [hn, dedup_points]
    norm_num [List.foldl, Prod.ext_iff, sED]
  rw [smallest_enclosing_circle, hd]
  show ((scan_points (sED/2, sED) [(0, 0), (sED, 0)]).cx,
        (scan_points (sED/2, sED) [(0, 0), (sED, 0)]).cy,
        (scan_points (sED/2, sED) [(0, 0), (sED, 0)]).r) = _
  have e1 : scan_j (0, 0) [(sED/2, sED)] = _circle_from_two_points (0, 0) (sED/2, sED) := by
    rw [scan_j, scan_j_aux_cons, if_neg dec_C_zA, scan_k_nil, List.nil_append,
      scan_j_aux_nil]
  have e2 : scan_j (sED, 0) [(sED/2, sED), (0, 0)] =
      _circle_from_two_points (sED, 0) (0, 0) := by
    rw [scan_j, scan_j_aux_cons, if_neg dec_C_zB, scan_k_nil, List.nil_append,
      scan_j_aux_cons, if_neg dec_A_dBC, scan_k_cons, if_neg dec_C_dBA, three_B_A_C,
      scan_k_nil, scan_j_aux_nil]
  rw [scan_points, scan_points_aux_cons, if_neg dec_A_zC, e1,
    show ([(sED/2, sED)] ++ [(0, 0)] : List Point) = [(sED/2, sED), (0, 0)] from rfl,
    scan_points_aux_cons, if_neg dec_B_dAC, e2, scan_points_aux_nil,
    _circle_from_two_points]
  show ((sED + 0) / 2, (0 + 0 : ℚ) / 2, _distance (sED, 0) (0, 0) / 2) = _
  rw [show (sED + 0) / 2 = sED / 2 from by ring,
    show ((0 + 0 : ℚ)) / 2 = (0 : ℚ) from by ring]

/-- C2, failing input: three valid points at coordinate scale `2^-31`.
The returned circle leaves the input point `(0, 0)` outside by about
`1.6e-10`, far beyond the `1e-12` containment slack: at this scale every
triple is below the absolute `1e-18` collinearity cutoff, so the
circumcircle step of the algorithm never runs. -/
theorem c2_containment_failure :
    smallest_enclosing_circle [some [RawPoint.valid 0 0, RawPoint.valid sED 0,
        RawPoint.valid (sED/2) sED]] =
      (3 * sED / 4, sED / 2, _distance (sED/2, sED) (sED, 0) / 2) ∧
    ¬ _is_in_circle (0, 0)
      { cx := 3 * sED / 4, cy := sED / 2, r := _distance (sED/2, sED) (sED, 0) / 2 } := by
  refine ⟨sec_eval_order1, ?_⟩
  apply not_in_circle_of_wedge _ _ (((4 / 10 ^ 10 : ℚ)) : ℝ)
  · show _distance (sED/2, sED) (sED, 0) / 2 + 1e-12 < _
    have h := dist_C_B_lt
    push_cast at h ⊢
    norm_num at h ⊢
    linarith
  · push_cast
    rw [sED]
    norm_num

/-- C5, failing input: the same three points in two input orders.  The
two runs return materially different circles (centers `(3·sED/4,
sED/2)` versus `(sED/2, 0)`, about `2.6e-10` apart — half the span of
the whole point set), so point order does change the output circle. -/
theorem c5_order_dependence :
    smallest_enclosing_circle [some [RawPoint.valid 0 0, RawPoint.valid sED 0,
        RawPoint.valid (sED/2) sED]] =
      (3 * sED / 4, sED / 2, _distance (sED/2, sED) (sED, 0) / 2) ∧
    smallest_enclosing_circle [some [RawPoint.valid (sED/2) sED, RawPoint.valid 0 0,
        RawPoint.valid sED 0]] =
      (sED / 2, 0, _distance (sED, 0) (0, 0) / 2) ∧
    smallest_enclosing_circle [some [RawPoint.valid 0 0, RawPoint.valid sED 0,
        RawPoint.valid (sED/2) sED]] ≠
      smallest_enclosing_circle [some [RawPoint.valid (sED/2) sED, RawPoint.valid 0 0,
        RawPoint.valid sED 0]] := by
  refine ⟨sec_eval_order1, sec_eval_order2, ?_⟩
  rw [sec_eval_order1, sec_eval_order2]
  intro h
  rw [Prod.mk.injEq] at h
  have h1 := h.1
  rw [sED] at h1
  norm_num at h1

end Geometry

end OutageModel
